import Mathlib

/-!
Verification of the tabular-session engine (a Tauri/DuckDB back-end).

The definitions below are a shallow embedding of the Rust sources under
`src/src-tauri/src/`: the SQL-text builders, the identifier sanitiser, the
column classifier, the row decoder, and a state-based model of the engine
operations.  Definitions that model the embedded SQL engine itself (which is
an external dependency, treated as a black box by the repository) carry a
doc comment saying so.
-/

namespace Rats

/-- A single-quote character, written without an apostrophe literal. -/
def sq : String := String.singleton (Char.ofNat 39)

/-- Rust `Vec::join(sep)`: empty list gives the empty string, a singleton is
returned as is, and longer lists interleave the separator. -/
def joinSep (sep : String) : List String → String
  | [] => ""
  | [x] => x
  | x :: y :: xs => x ++ sep ++ joinSep sep (y :: xs)

/-- Wire cell values: the `serde_json::Value` shapes that the back-end
produces and consumes (`null | bool | integer number | float number |
string | array`).  JSON objects never occur in the data paths modelled
here; the catch-all source arms that map them to `NULL` are noted at the
use sites. -/
inductive JValue where
  | jnull
  | jbool (b : Bool)
  | jint (n : Int)
  | jfloat (q : Rat)
  | jstr (s : String)
  | jarr (elems : List JValue)

/-- Rust `s.replace("'", "''")` from `build_condition_clause`. -/
def escape_single_quotes (s : String) : String := s.replace sq (sq ++ sq)

/-- Decimal rendering of a float JSON number (`serde_json` `Number::to_string`).
No theorem below depends on its digits, so the exact shortest-round-trip
format is abbreviated to the `Rat` rendering. -/
def floatRepr (q : Rat) : String := toString q

/-- Rendering of one element of an `IN` array, from the `Value::Array` arm of
`build_condition_clause` (statistics/mod.rs:327-337): strings are quoted with
doubled single quotes, numbers print their decimal form, anything else
becomes `NULL`. -/
def render_array_item : JValue → String
  | .jstr s => sq ++ escape_single_quotes s ++ sq
  | .jint n => toString n
  | .jfloat q => floatRepr q
  | _ => "NULL"

/-- The `value_str` computation of `build_condition_clause`
(statistics/mod.rs:322-339). -/
def render_value : JValue → String
  | .jstr s => sq ++ escape_single_quotes s ++ sq
  | .jint n => toString n
  | .jfloat q => floatRepr q
  | .jbool b => if b then "true" else "false"
  | .jnull => "NULL"
  | .jarr elems => "(" ++ joinSep ", " (elems.map render_array_item) ++ ")"

/-- `FilterCondition` (statistics/mod.rs:314-319). -/
structure FilterCondition where
  column : String
  operator : String
  value : JValue

/-- Rust `str::to_uppercase`, modelled as the per-character ASCII uppercase
map.  The two agree on every ASCII string; the sources only apply it to
operator and aggregate-function tokens and to declared-type names, and no
theorem below depends on its value at non-ASCII input. -/
def to_uppercase (s : String) : String := String.mk (s.data.map Char.toUpper)

/-- `build_condition_clause` (statistics/mod.rs:321-346). -/
def build_condition_clause (c : FilterCondition) : String :=
  let value_str := render_value c.value
  match to_uppercase c.operator with
  | "IN" => "\"" ++ c.column ++ "\" IN " ++ value_str
  | "LIKE" => "\"" ++ c.column ++ "\" LIKE " ++ value_str
  | _ => "\"" ++ c.column ++ "\" " ++ c.operator ++ " " ++ value_str

/-- The `where_clause` computation shared by `filter_data` and
`create_filtered_view` (statistics/mod.rs:294-303 and 256-265). -/
def where_clause_of (conditions : List FilterCondition) : String :=
  let where_clauses := conditions.map build_condition_clause
  if where_clauses.isEmpty then "" else "WHERE " ++ joinSep " AND " where_clauses

/-- The SQL text built by `query_data` (duckdb_core/mod.rs:141) after the
`unwrap_or` defaults have been applied. -/
def query_data_sql (table_name : String) (limit offset : Nat) : String :=
  "SELECT * FROM " ++ table_name ++ " LIMIT " ++ toString limit ++ " OFFSET " ++ toString offset

/-- The `query_data` command text (duckdb_core/mod.rs:129-145): optional
`limit`/`offset` default to 1000 and 0. -/
def query_data_query (table_name : String) (limit offset : Option Nat) : String :=
  query_data_sql table_name (limit.getD 1000) (offset.getD 0)

/-- The SQL text built by `filter_data` (statistics/mod.rs:305-308); note one
space on each side of the (possibly empty) WHERE clause. -/
def filter_data_query (table_name : String) (conditions : List FilterCondition)
    (limit offset : Option Nat) : String :=
  "SELECT * FROM " ++ table_name ++ " " ++ where_clause_of conditions
    ++ " LIMIT " ++ toString (limit.getD 1000) ++ " OFFSET " ++ toString (offset.getD 0)

/-- The CREATE VIEW text built by `create_filtered_view`
(statistics/mod.rs:268-271). -/
def create_view_sql (view_name source_table : String) (conditions : List FilterCondition) : String :=
  "CREATE VIEW " ++ view_name ++ " AS SELECT * FROM " ++ source_table ++ " "
    ++ where_clause_of conditions

/-- `AggregationSpec` (statistics/mod.rs:391-396).  The source field `alias`
is a reserved word here, hence `aliasName`. -/
structure AggregationSpec where
  column : String
  function : String
  aliasName : String
  deriving DecidableEq, Repr

/-- One aggregation item of the SELECT list built by `group_and_aggregate`
(statistics/mod.rs:365-368): the function name is embedded exactly as
supplied, the column and alias are double-quoted. -/
def agg_fragment (a : AggregationSpec) : String :=
  a.function ++ "(\"" ++ a.column ++ "\") as \"" ++ a.aliasName ++ "\""

/-- The SQL text built by `group_and_aggregate` (statistics/mod.rs:349-389). -/
def group_and_aggregate_sql (table_name : String) (group_by_columns : List String)
    (aggregations : List AggregationSpec) : String :=
  let group_cols := group_by_columns.map (fun c => "\"" ++ c ++ "\"")
  let agg_cols := aggregations.map agg_fragment
  let select_clause :=
    if group_cols.isEmpty then joinSep ", " agg_cols
    else joinSep ", " group_cols ++ ", " ++ joinSep ", " agg_cols
  if group_cols.isEmpty then
    "SELECT " ++ select_clause ++ " FROM " ++ table_name
  else
    "SELECT " ++ select_clause ++ " FROM " ++ table_name
      ++ " GROUP BY " ++ joinSep ", " group_cols

/-- The COPY text built by `export_to_csv` (export/mod.rs:46-51). -/
def export_csv_copy_sql (table_name path : String) (include_header : Bool) : String :=
  "COPY " ++ table_name ++ " TO " ++ sq ++ path ++ sq ++ " (FORMAT CSV, "
    ++ (if include_header then "HEADER" else "") ++ ")"

/-- The aggregate text built by `aggregate_column` (statistics/mod.rs:186-190);
this command, unlike `group_and_aggregate`, uppercases the function name. -/
def aggregate_column_sql (table_name column_name function : String) : String :=
  "SELECT " ++ to_uppercase function ++ "(\"" ++ column_name ++ "\") FROM " ++ table_name

/-! ## Identifier sanitisation (import/mod.rs) -/

/-- Spelled-out test for the underscore character. -/
def isUnderscore (c : Char) : Bool := c == '_'

/-- Rust `str::trim_matches('_')`: strip every leading and every trailing
underscore. -/
def trimUnderscores (l : List Char) : List Char :=
  ((l.dropWhile isUnderscore).reverse.dropWhile isUnderscore).reverse

/-- `sanitize_table_name` (import/mod.rs:55-61).  Rust `char::is_alphanumeric`
is the Unicode Alphabetic-or-Numeric test, a property table external to the
repository, so it enters as the parameter `isAlnum`; `latin1Alphanumeric`
below instantiates it on the code points under U+0100. -/
def sanitize_table_name (isAlnum : Char → Bool) (name : String) : String :=
  String.mk (trimUnderscores
    (name.data.map (fun c => if isAlnum c || c == '_' then c else '_')))

/-- Modelled from the Unicode character tables (external to the repository):
the restriction of Rust `char::is_alphanumeric` to code points below U+0100 —
ASCII digits and letters, the Latin-1 letters U+00C0..U+00FF minus the two
operators U+00D7 and U+00F7, and the stray Latin-1 letter/numeric code points
U+00AA, U+00B2, U+00B3, U+00B5, U+00B9, U+00BA.  Code points at or above
U+0100 are not classified by this instantiation. -/
def latin1Alphanumeric (c : Char) : Bool :=
  (0x30 ≤ c.toNat && c.toNat ≤ 0x39) ||
  (0x41 ≤ c.toNat && c.toNat ≤ 0x5A) ||
  (0x61 ≤ c.toNat && c.toNat ≤ 0x7A) ||
  c.toNat == 0xAA || c.toNat == 0xB2 || c.toNat == 0xB3 ||
  c.toNat == 0xB5 || c.toNat == 0xB9 || c.toNat == 0xBA ||
  (0xC0 ≤ c.toNat && c.toNat ≤ 0xFF && !(c.toNat == 0xD7) && !(c.toNat == 0xF7))

/-- ASCII word character, the class `[A-Za-z0-9_]` of the specification. -/
def isAsciiWordChar (c : Char) : Bool :=
  (0x30 ≤ c.toNat && c.toNat ≤ 0x39) ||
  (0x41 ≤ c.toNat && c.toNat ≤ 0x5A) ||
  (0x61 ≤ c.toNat && c.toNat ≤ 0x7A) ||
  c == '_'

/-- Stated from the specification (§3 invariant 1, §8 property 1): matches
`^[A-Za-z0-9_]+$` and has neither a leading nor a trailing underscore. -/
def matchesAsciiIdent (s : String) : Bool :=
  !s.data.isEmpty && s.data.all isAsciiWordChar &&
    !(s.data.head? == some '_') && !(s.data.getLast? == some '_')

/-- The table-name derivation of `import_file` (import/mod.rs:249-259): the
caller-supplied name if present, else the file stem, else the literal
`imported_data`; the chosen name is then sanitised.  Note that the
`imported_data` fallback guards only a missing stem, not an empty
sanitisation result. -/
def derive_table_name (isAlnum : Char → Bool)
    (provided file_stem : Option String) : String :=
  sanitize_table_name isAlnum (provided.getD (file_stem.getD "imported_data"))

/-- The CSV import statement of `import_csv_with_duckdb` (import/mod.rs:85). -/
def csv_create_sql (table_name path : String) : String :=
  "CREATE TABLE " ++ table_name ++ " AS FROM " ++ sq ++ path ++ sq

/-! ## Column classification and statistics SQL (statistics/mod.rs) -/

/-- Boolean substring test (Rust `str::contains`, which is case-sensitive). -/
def strContainsB (hay needle : String) : Bool := decide (needle.data <:+: hay.data)

/-- The `is_numeric` test of `calculate_column_statistics`
(statistics/mod.rs:89-93): a case-sensitive substring check. -/
def is_numeric_type (data_type : String) : Bool :=
  strContainsB data_type "INT" || strContainsB data_type "DOUBLE" ||
  strContainsB data_type "FLOAT" || strContainsB data_type "DECIMAL" ||
  strContainsB data_type "NUMERIC"

/-- Stated from the specification sentence behind claim C6: the same five
needles looked up as case-insensitive substrings (the haystack is uppercased
first; the needles are already uppercase). -/
def spec_is_numeric_type (data_type : String) : Bool :=
  strContainsB (to_uppercase data_type) "INT" ||
  strContainsB (to_uppercase data_type) "DOUBLE" ||
  strContainsB (to_uppercase data_type) "FLOAT" ||
  strContainsB (to_uppercase data_type) "DECIMAL" ||
  strContainsB (to_uppercase data_type) "NUMERIC"

/-- The statistics query used for numeric columns
(statistics/mod.rs:96-114), text reproduced verbatim. -/
def numeric_stats_sql (column_name table_name : String) : String :=
  "SELECT\n                COUNT(\"" ++ column_name ++ "\") as count,\n                COUNT(*) - COUNT(\"" ++ column_name ++ "\") as null_count,\n                COUNT(DISTINCT \"" ++ column_name ++ "\") as distinct_count,\n                MIN(\"" ++ column_name ++ "\")::VARCHAR as min_val,\n                MAX(\"" ++ column_name ++ "\")::VARCHAR as max_val,\n                AVG(\"" ++ column_name ++ "\") as mean,\n                MEDIAN(\"" ++ column_name ++ "\") as median,\n                STDDEV_POP(\"" ++ column_name ++ "\") as std_dev,\n                VAR_POP(\"" ++ column_name ++ "\") as variance,\n                PERCENTILE_CONT(0.25) WITHIN GROUP (ORDER BY \"" ++ column_name ++ "\") as q25,\n                PERCENTILE_CONT(0.75) WITHIN GROUP (ORDER BY \"" ++ column_name ++ "\") as q75\n            FROM " ++ table_name

/-- The statistics query used for non-numeric columns
(statistics/mod.rs:116-132): the numeric slots are the literal `NULL`. -/
def non_numeric_stats_sql (column_name table_name : String) : String :=
  "SELECT\n                COUNT(\"" ++ column_name ++ "\") as count,\n                COUNT(*) - COUNT(\"" ++ column_name ++ "\") as null_count,\n                COUNT(DISTINCT \"" ++ column_name ++ "\") as distinct_count,\n                MIN(\"" ++ column_name ++ "\")::VARCHAR as min_val,\n                MAX(\"" ++ column_name ++ "\")::VARCHAR as max_val,\n                NULL as mean,\n                NULL as median,\n                NULL as std_dev,\n                NULL as variance,\n                NULL as q25,\n                NULL as q75\n            FROM " ++ table_name

/-- The query dispatch of `calculate_column_statistics`
(statistics/mod.rs:96-133). -/
def calculate_column_statistics_sql (table_name column_name data_type : String) : String :=
  if is_numeric_type data_type then numeric_stats_sql column_name table_name
  else non_numeric_stats_sql column_name table_name

/-! ## Row decoding (duckdb_core/mod.rs, execute_query) -/

/-- An IEEE double as the decoder observes it: finite (exact value, a
rational), or one of the three non-finite shapes. -/
inductive F64 where
  | finite (q : Rat)
  | nan
  | inf
  | negInf
  deriving DecidableEq, Repr

/-- Engine-native cell values, the `duckdb::types::ValueRef` shapes matched
by `execute_query` (duckdb_core/mod.rs:68-89).  The catch-all arm's debug
rendering is carried in the `other` constructor. -/
inductive EngineValue where
  | null
  | boolean (b : Bool)
  | tinyInt (i : Int)
  | smallInt (i : Int)
  | int (i : Int)
  | bigInt (i : Int)
  | float (x : F64)
  | double (x : F64)
  | text (s : String)
  | other (dbg : String)
  deriving DecidableEq, Repr

/-- `serde_json::Number::from_f64`, an external library function embedded by
its documented contract: `some` exactly on finite doubles, `none` on NaN and
the infinities. -/
def from_f64 : F64 → Option Rat
  | .finite q => some q
  | _ => none

/-- The cell decoding of `execute_query` (duckdb_core/mod.rs:68-89).  The
`Float` arm first widens f32 to f64 (exact, so both float arms share `F64`);
`from_utf8_lossy` on the text arm is the identity on the valid UTF-8 strings
modelled here. -/
def decodeValue : EngineValue → JValue
  | .null => .jnull
  | .boolean b => .jbool b
  | .tinyInt i => .jint i
  | .smallInt i => .jint i
  | .int i => .jint i
  | .bigInt i => .jint i
  | .float x => ((from_f64 x).map JValue.jfloat).getD .jnull
  | .double x => ((from_f64 x).map JValue.jfloat).getD .jnull
  | .text s => .jstr s
  | .other dbg => .jstr dbg

/-! ## Engine state model

The embedded SQL engine is a dependency of the repository, not part of it;
the statement semantics used below (CREATE TABLE AS SELECT, DROP, RENAME,
LIMIT/OFFSET windows) are modelled from the specification (§4.1 and the
glossary), while the Rust command bodies that sequence those statements are
translated from the source. -/

/-- A named relation: ordered column names and the stored rows. -/
structure Table where
  cols : List String
  rows : List (List EngineValue)
  deriving DecidableEq, Repr

/-- The engine catalog: an association list from names to tables. -/
abbrev DBState := List (String × Table)

def lookupTable : DBState → String → Option Table
  | [], _ => none
  | (m, t) :: rest, n => if m = n then some t else lookupTable rest n

/-- Modelled from the spec: `DROP TABLE IF EXISTS n` removes every catalog
entry named `n` and never fails. -/
def dropAllTables : DBState → String → DBState
  | [], _ => []
  | (k, tb) :: rest, n =>
    if k = n then dropAllTables rest n else (k, tb) :: dropAllTables rest n

/-- Modelled from the spec: `ALTER TABLE old RENAME TO new` renames the
catalog entries named `old`. -/
def renameTable : DBState → String → String → DBState
  | [], _, _ => []
  | (k, tb) :: rest, old, new =>
    (if k = old then (new, tb) else (k, tb)) :: renameTable rest old new

/-- `QueryResult` (duckdb_core/mod.rs:18-23). -/
structure QueryResult where
  columns : List String
  rows : List (List JValue)
  total_rows : Nat

/-- `SortColumn` (editor/mod.rs:11-15). -/
structure SortColumn where
  column : String
  ascending : Bool
  deriving DecidableEq, Repr

/-- `ReorderResult` (editor/mod.rs:5-9). -/
structure ReorderResult where
  success : Bool
  message : String
  deriving DecidableEq, Repr

/-- Position of a column name in a schema. -/
def colIndex : List String → String → Option Nat
  | [], _ => none
  | c :: rest, x => if c = x then some 0 else (colIndex rest x).map (· + 1)

/-- Cell extraction; rows are engine-produced and match the schema width, so
the default is never reached on well-formed states. -/
def cellAt (r : List EngineValue) (i : Nat) : EngineValue := r.getD i .null

/-- Resolve the sort keys of `reorder_rows` against a schema; `none` when a
named column does not exist (the engine would reject the ORDER BY). -/
def resolveKeys (cols : List String) : List SortColumn → Option (List (Nat × Bool))
  | [] => some []
  | k :: rest =>
    match colIndex cols k.column with
    | none => none
    | some i => (resolveKeys cols rest).map ((i, k.ascending) :: ·)

/-- Lexicographic row comparison along resolved sort keys: an ASC key
compares the cells as they are, a DESC key swaps them, and ties fall through
to the next key.  `cmp` is the engine's per-value ordering. -/
def keyLe (cmp : EngineValue → EngineValue → Bool) :
    List (Nat × Bool) → List EngineValue → List EngineValue → Bool
  | [], _, _ => true
  | (i, asc) :: rest, r1, r2 =>
    let a := if asc then cellAt r1 i else cellAt r2 i
    let b := if asc then cellAt r2 i else cellAt r1 i
    if cmp a b then (if cmp b a then keyLe cmp rest r1 r2 else true) else false

/-- The propositional form of `keyLe`, the order in which the sorted table is
`List.Sorted`. -/
def rowRel (cmp : EngineValue → EngineValue → Bool) (ks : List (Nat × Bool)) :
    List EngineValue → List EngineValue → Prop :=
  fun r1 r2 => keyLe cmp ks r1 r2 = true

instance rowRelDecidable (cmp : EngineValue → EngineValue → Bool)
    (ks : List (Nat × Bool)) : DecidableRel (rowRel cmp ks) :=
  fun r1 r2 => instDecidableEqBool (keyLe cmp ks r1 r2) true

/-- Modelled from the spec (§4.1, §8 property 2): `SELECT * FROM t ORDER BY
keys` yields the rows sorted by the key order — here a sorted permutation
produced by insertion sort; the spec explicitly leaves stability
unguaranteed. -/
def orderByRows (cmp : EngineValue → EngineValue → Bool) (t : Table)
    (keys : List SortColumn) : Option (List (List EngineValue)) :=
  (resolveKeys t.cols keys).map (fun ks => List.insertionSort (rowRel cmp ks) t.rows)

/-- `reorder_rows` (editor/mod.rs:17-70) over the engine state model: reject
empty sort keys, drop a stale temp table, materialise the sorted rows as
`<t>_sorted_temp`, drop the original, rename the temp over it. -/
def reorder_rows (cmp : EngineValue → EngineValue → Bool) (st : DBState)
    (table_name : String) (sort_columns : List SortColumn) :
    Except String (DBState × ReorderResult) :=
  if sort_columns.isEmpty then .error "No sort columns specified"
  else
    let temp_table := table_name ++ "_sorted_temp"
    let st1 := dropAllTables st temp_table
    match lookupTable st1 table_name with
    | none => .error "Failed to create sorted table: Catalog Error"
    | some t =>
      match orderByRows cmp t sort_columns with
      | none => .error "Failed to create sorted table: Binder Error"
      | some sorted =>
        let st2 := (temp_table, Table.mk t.cols sorted) :: st1
        match lookupTable st2 table_name with
        | none => .error "Failed to drop original table: Catalog Error"
        | some _ =>
          let st3 := dropAllTables st2 table_name
          let st4 := renameTable st3 temp_table table_name
          .ok (st4, ⟨true, "Rows reordered by " ++ toString sort_columns.length ++ " column(s)"⟩)

/-- The windowed read behind `query_data`: the engine evaluates
`SELECT * FROM t LIMIT l OFFSET o` (window modelled from the spec), and
`execute_query` (duckdb_core/mod.rs:46-102) decodes the produced rows and
sets `total_rows` to the number of rows collected. -/
def execute_select_window (st : DBState) (table_name : String)
    (limit offset : Nat) : Except String QueryResult :=
  match lookupTable st table_name with
  | none => .error "Query error: Catalog Error"
  | some t =>
    let window := (t.rows.drop offset).take limit
    let decoded := window.map (fun r => r.map decodeValue)
    .ok ⟨t.cols, decoded, decoded.length⟩

/-- `query_data` (duckdb_core/mod.rs:129-145): optional limit and offset
default to 1000 and 0, then a windowed read. -/
def query_data (st : DBState) (table_name : String)
    (limit offset : Option Nat) : Except String QueryResult :=
  execute_select_window st table_name (limit.getD 1000) (offset.getD 0)

/-! ## Whitespace tokenisation of SQL text

`filter_data` with no conditions and `query_data` emit SQL texts that differ
only in spacing around the empty WHERE slot; the engine (a SQL parser) is
whitespace-insensitive, modelled as a function of the space-separated token
list of the statement. -/

/-- One `foldr` step of the tokeniser: a space opens a fresh token, any other
character extends the current head token. -/
def tokStep (c : Char) (acc : List (List Char)) : List (List Char) :=
  if c = ' ' then [] :: acc
  else
    match acc with
    | [] => [[c]]
    | t :: ts => (c :: t) :: ts

/-- Raw split of a character list at spaces (empty fragments included). -/
def rawTokens (l : List Char) : List (List Char) := l.foldr tokStep [[]]

/-- Space-separated tokens of a character list. -/
def tokensL (l : List Char) : List (List Char) :=
  (rawTokens l).filter (fun t => !t.isEmpty)

/-- Space-separated tokens of a SQL text. -/
def sqlTokens (s : String) : List (List Char) := tokensL s.data

/-! ## Concrete instantiation material

A concrete engine value ordering and small concrete states, used to
instantiate the universally quantified theorems below on explicit inputs. -/

/-- An integer measure of an engine value, making a concrete total preorder
for the sort examples. -/
def engMeasure : EngineValue → Int
  | .tinyInt i => i
  | .smallInt i => i
  | .int i => i
  | .bigInt i => i
  | _ => 0

/-- A concrete total, transitive per-value ordering. -/
def cmpW (a b : EngineValue) : Bool := decide (engMeasure a ≤ engMeasure b)

/-- The three-row table of specification scenario S3: `t(id, age)` holding
`(1,30), (2,20), (3,25)`. -/
def tableW : Table :=
  ⟨["id", "age"], [[.int 1, .int 30], [.int 2, .int 20], [.int 3, .int 25]]⟩

/-- A one-table catalog holding `tableW` under the name `t`. -/
def stateW : DBState := [("t", tableW)]

/-- A one-column, three-row table for the windowed-read example. -/
def tableQ : Table := ⟨["x"], [[.int 1], [.int 2], [.int 3]]⟩

/-- A one-table catalog holding `tableQ` under the name `t`. -/
def stateQ : DBState := [("t", tableQ)]

/-- The state and reply produced by reordering `stateW` by ascending `age`. -/
def reorderedW : DBState × ReorderResult :=
  ([("t", ⟨["id", "age"],
      [[.int 2, .int 20], [.int 3, .int 25], [.int 1, .int 30]]⟩)],
   ⟨true, "Rows reordered by 1 column(s)"⟩)

/-! ## Helper lemmas -/

theorem infix_append_left {s b : List Char} (a : List Char) (h : s <:+: b) :
    s <:+: a ++ b :=
  h.trans (List.suffix_append a b).isInfix

theorem infix_append_right {s a : List Char} (b : List Char) (h : s <:+: a) :
    s <:+: a ++ b :=
  h.trans (List.prefix_append a b).isInfix

theorem joinSep_mem_infix (sep : String) :
    ∀ (l : List String) (x : String), x ∈ l → x.data <:+: (joinSep sep l).data
  | [], _, hx => absurd hx (List.not_mem_nil _)
  | [y], x, hx => by
      have hxy : x = y := by simpa using hx
      subst hxy
      exact List.infix_refl _
  | y :: z :: zs, x, hx => by
      rcases List.mem_cons.mp hx with rfl | h
      · show x.data <:+: ((x ++ sep) ++ joinSep sep (z :: zs)).data
        rw [String.data_append, String.data_append]
        exact infix_append_right _ (infix_append_right _ (List.infix_refl _))
      · have ih := joinSep_mem_infix sep (z :: zs) x h
        show x.data <:+: ((y ++ sep) ++ joinSep sep (z :: zs)).data
        rw [String.data_append]
        exact infix_append_left _ ih

theorem head?_dropWhile_ne (p : Char → Bool) :
    ∀ (l : List Char) (a : Char), (l.dropWhile p).head? = some a → p a = false := by
  intro l
  induction l with
  | nil => intro a h; simp [List.dropWhile] at h
  | cons c cs ih =>
    intro a h
    by_cases hc : p c
    · rw [List.dropWhile_cons, if_pos hc] at h
      exact ih a h
    · rw [List.dropWhile_cons, if_neg hc] at h
      have hca : c = a := by simpa using h
      subst hca
      simpa using hc

theorem getLast?_of_suffix {Y X : List Char} (h : Y <:+ X) (hY : Y ≠ []) :
    Y.getLast? = X.getLast? := by
  obtain ⟨s, rfl⟩ := h
  exact (List.getLast?_append_of_ne_nil _ hY).symm

theorem trimUnderscores_subset {l : List Char} {ch : Char}
    (h : ch ∈ trimUnderscores l) : ch ∈ l := by
  unfold trimUnderscores at h
  rw [List.mem_reverse] at h
  have h2 := (List.dropWhile_sublist isUnderscore).subset h
  rw [List.mem_reverse] at h2
  exact (List.dropWhile_sublist isUnderscore).subset h2

theorem trimUnderscores_head? (l : List Char) :
    (trimUnderscores l).head? ≠ some '_' := by
  unfold trimUnderscores
  intro h
  rw [List.head?_reverse] at h
  have hYne : (l.dropWhile isUnderscore).reverse.dropWhile isUnderscore ≠ [] := by
    intro hnil
    rw [hnil] at h
    simp at h
  have hsuf : (l.dropWhile isUnderscore).reverse.dropWhile isUnderscore
      <:+ (l.dropWhile isUnderscore).reverse := List.dropWhile_suffix isUnderscore
  have hrev : ((l.dropWhile isUnderscore).reverse).getLast? = some '_' :=
    (getLast?_of_suffix hsuf hYne) ▸ h
  rw [List.getLast?_reverse] at hrev
  have hu := head?_dropWhile_ne isUnderscore l _ hrev
  simp [isUnderscore] at hu

theorem trimUnderscores_getLast? (l : List Char) :
    (trimUnderscores l).getLast? ≠ some '_' := by
  unfold trimUnderscores
  intro h
  rw [List.getLast?_reverse] at h
  have hu := head?_dropWhile_ne isUnderscore _ _ h
  simp [isUnderscore] at hu

/-! ## Claim C1 -/

/-- Claim C1, counterexample.  The claim says every caller-supplied
identifier appears double-quoted in the generated SQL and that identifiers
containing a double quote are rejected.  Neither holds: `query_data` embeds
the table name verbatim (the text contains no quoted occurrence of `t`), and
`build_condition_clause` happily embeds a column name that contains a double
quote instead of failing. -/
theorem table_identifier_unquoted_counterexample :
    query_data_sql "t" 1000 0 = "SELECT * FROM t LIMIT 1000 OFFSET 0" ∧
    strContainsB (query_data_sql "t" 1000 0) "\"t\"" = false ∧
    build_condition_clause ⟨"a\"b", "=", .jnull⟩ = "\"a\"b\" = NULL" := by
  refine ⟨by decide, by decide, by decide⟩

/-- Claim C1, amended: filter-condition column names are double-quoted when
embedded, while table, view and COPY-target identifiers are embedded
verbatim without quoting, and no identifier is checked for a contained
double-quote character (the builders are total). -/
theorem identifiers_quoting_amended (c : FilterCondition) (t v s path : String)
    (l o : Nat) (conds : List FilterCondition) (hdr : Bool) :
    (∃ rest, build_condition_clause c = "\"" ++ c.column ++ "\" " ++ rest) ∧
    query_data_sql t l o
      = "SELECT * FROM " ++ t ++ " LIMIT " ++ toString l ++ " OFFSET " ++ toString o ∧
    create_view_sql v s conds
      = "CREATE VIEW " ++ v ++ " AS SELECT * FROM " ++ s ++ " " ++ where_clause_of conds ∧
    export_csv_copy_sql t path hdr
      = "COPY " ++ t ++ " TO " ++ sq ++ path ++ sq ++ " (FORMAT CSV, "
        ++ (if hdr then "HEADER" else "") ++ ")" := by
  refine ⟨?_, rfl, rfl, rfl⟩
  unfold build_condition_clause
  split
  · refine ⟨"IN " ++ render_value c.value, ?_⟩
    rw [show ("\" IN " : String) = "\" " ++ "IN " from rfl]
    simp only [String.append_assoc]
  · refine ⟨"LIKE " ++ render_value c.value, ?_⟩
    rw [show ("\" LIKE " : String) = "\" " ++ "LIKE " from rfl]
    simp only [String.append_assoc]
  · exact ⟨c.operator ++ " " ++ render_value c.value, by simp only [String.append_assoc]⟩

/-! ## Claim C2 -/

/-- Claim C2, counterexample.  The claim says an operator token outside
`{=, !=, >, <, >=, <=, LIKE, IN}` makes the operation fail with
`InvalidArgument` and that no SQL containing the token is executed.  In
fact `build_condition_clause` has no rejection path: the unknown token `<>`
is embedded verbatim, and `filter_data` sends the resulting SQL text to the
engine. -/
theorem unknown_operator_embedded_counterexample :
    build_condition_clause ⟨"x", "<>", .jnull⟩ = "\"x\" <> NULL" ∧
    filter_data_query "t" [⟨"x", "<>", .jnull⟩] none none
      = "SELECT * FROM t WHERE \"x\" <> NULL LIMIT 1000 OFFSET 0" ∧
    strContainsB (filter_data_query "t" [⟨"x", "<>", .jnull⟩] none none) "<>" = true := by
  refine ⟨by decide, by decide, by decide⟩

/-- Claim C2, amended: the operator set is not validated.  `IN` and `LIKE`
(case-insensitively) get dedicated clause forms; every other operator
token — legal or not — is embedded verbatim between the quoted column and
the rendered value, and the builder never fails. -/
theorem build_condition_operator_passthrough (c : FilterCondition)
    (h1 : to_uppercase c.operator ≠ "IN") (h2 : to_uppercase c.operator ≠ "LIKE") :
    build_condition_clause c
      = "\"" ++ c.column ++ "\" " ++ c.operator ++ " " ++ render_value c.value := by
  unfold build_condition_clause
  split
  · rename_i h; exact absurd h h1
  · rename_i h; exact absurd h h2
  · rfl

/-- Witness for the amended C2 theorem at the concrete condition
`age >= 3` of specification scenario S4. -/
theorem build_condition_operator_passthrough_witness :
    to_uppercase (FilterCondition.mk "age" ">=" (.jint 3)).operator ≠ "IN" ∧
    to_uppercase (FilterCondition.mk "age" ">=" (.jint 3)).operator ≠ "LIKE" ∧
    build_condition_clause ⟨"age", ">=", .jint 3⟩ = "\"age\" >= 3" :=
  ⟨by decide, by decide,
    (build_condition_operator_passthrough ⟨"age", ">=", .jint 3⟩
      (by decide) (by decide)).trans (by decide)⟩

/-! ## Claim C3 -/

/-- Claim C3, counterexample.  The claim says every sanitiser output either
matches the ASCII class `^[A-Za-z0-9_]+$` (without edge underscores) or hits
the empty-result fallback.  Rust `char::is_alphanumeric` is a Unicode test,
so `é` (U+00E9) survives sanitisation: the output is the non-empty string
`é`, which fails the ASCII pattern and is not replaced by any fallback. -/
theorem sanitize_keeps_nonascii_counterexample :
    sanitize_table_name latin1Alphanumeric (String.singleton (Char.ofNat 233))
      = String.singleton (Char.ofNat 233) ∧
    matchesAsciiIdent (String.singleton (Char.ofNat 233)) = false ∧
    String.singleton (Char.ofNat 233) ≠ "" := by
  refine ⟨by decide, by decide, by decide⟩

/-- Claim C3, amended: every code point that is neither Unicode-alphanumeric
nor `_` is replaced by `_` and edge underscores are trimmed, so the output
consists of Unicode-alphanumeric characters and interior underscores only,
with no leading or trailing underscore — the ASCII-only pattern of the claim
holds just for ASCII inputs, and the sanitiser itself has no empty-result
fallback. -/
theorem sanitize_charset_amended (isAlnum : Char → Bool) (name : String) :
    (∀ ch ∈ (sanitize_table_name isAlnum name).data, isAlnum ch = true ∨ ch = '_') ∧
    (sanitize_table_name isAlnum name).data.head? ≠ some '_' ∧
    (sanitize_table_name isAlnum name).data.getLast? ≠ some '_' := by
  refine ⟨?_, trimUnderscores_head? _, trimUnderscores_getLast? _⟩
  intro ch hch
  have hch2 : ch ∈ name.data.map
      (fun c => if isAlnum c || c == '_' then c else '_') := trimUnderscores_subset hch
  rw [List.mem_map] at hch2
  obtain ⟨x, _, hx⟩ := hch2
  by_cases hc : isAlnum x || x == '_'
  · rw [if_pos hc] at hx
    subst hx
    rcases Bool.or_eq_true .. |>.mp hc with h | h
    · exact Or.inl h
    · exact Or.inr (by simpa using h)
  · rw [if_neg hc] at hx
    exact Or.inr hx.symm

/-- Witness for the amended C3 theorem at the scenario-S2 input
`2024 Sales!`. -/
theorem sanitize_charset_amended_witness :
    (∀ ch ∈ (sanitize_table_name latin1Alphanumeric "2024 Sales!").data,
        latin1Alphanumeric ch = true ∨ ch = '_') ∧
    (sanitize_table_name latin1Alphanumeric "2024 Sales!").data.head? ≠ some '_' ∧
    (sanitize_table_name latin1Alphanumeric "2024 Sales!").data.getLast? ≠ some '_' :=
  sanitize_charset_amended latin1Alphanumeric "2024 Sales!"

/-! ## Claim C4 -/

/-- Claim C4, counterexample.  The claim says `group_and_aggregate`
uppercases every aggregation function name and rejects functions outside the
allowed set.  In fact the function string is embedded exactly as supplied
(`sum` stays lowercase, so no `SUM` appears in the SQL) and a function
outside the set (`MODE`) is embedded instead of being rejected. -/
theorem group_and_aggregate_no_uppercase_no_reject :
    group_and_aggregate_sql "t" [] [⟨"x", "sum", "total"⟩]
      = "SELECT sum(\"x\") as \"total\" FROM t" ∧
    strContainsB (group_and_aggregate_sql "t" [] [⟨"x", "sum", "total"⟩]) "SUM" = false ∧
    group_and_aggregate_sql "t" [] [⟨"x", "MODE", "m"⟩]
      = "SELECT MODE(\"x\") as \"m\" FROM t" := by
  refine ⟨by decide, by decide, by decide⟩

/-- Claim C4, amended: `group_and_aggregate` embeds every aggregation
fragment — the function name exactly as supplied, neither uppercased nor
checked against an allowed set, with the column and alias double-quoted —
as a substring of the generated SQL, for any function string whatsoever. -/
theorem group_and_aggregate_embeds_function_verbatim
    (table_name : String) (group_by_columns : List String)
    (aggregations : List AggregationSpec) (a : AggregationSpec)
    (ha : a ∈ aggregations) :
    (agg_fragment a).data
      <:+: (group_and_aggregate_sql table_name group_by_columns aggregations).data := by
  have hmem : agg_fragment a ∈ aggregations.map agg_fragment := List.mem_map_of_mem _ ha
  have hj : (agg_fragment a).data
      <:+: (joinSep ", " (aggregations.map agg_fragment)).data :=
    joinSep_mem_infix _ _ _ hmem
  by_cases hg : (group_by_columns.map (fun c => "\"" ++ c ++ "\"")).isEmpty
  · have hsql : group_and_aggregate_sql table_name group_by_columns aggregations
        = "SELECT " ++ joinSep ", " (aggregations.map agg_fragment)
          ++ " FROM " ++ table_name := by
      simp [group_and_aggregate_sql, hg]
    rw [hsql, String.data_append, String.data_append, String.data_append]
    exact infix_append_right _ (infix_append_right _ (infix_append_left _ hj))
  · have hsql : group_and_aggregate_sql table_name group_by_columns aggregations
        = "SELECT " ++ (joinSep ", " (group_by_columns.map (fun c => "\"" ++ c ++ "\""))
            ++ ", " ++ joinSep ", " (aggregations.map agg_fragment))
          ++ " FROM " ++ table_name ++ " GROUP BY "
          ++ joinSep ", " (group_by_columns.map (fun c => "\"" ++ c ++ "\"")) := by
      simp [group_and_aggregate_sql, hg]
    rw [hsql]
    simp only [String.data_append]
    refine infix_append_right _ (infix_append_right _ (infix_append_right _
      (infix_append_right _ ?_)))
    exact infix_append_left _ (infix_append_left _ hj)

/-- Witness for the amended C4 theorem: the lowercase fragment
`sum("x") as "total"` occurs verbatim in the generated SQL. -/
theorem group_and_aggregate_embeds_function_verbatim_witness :
    (⟨"x", "sum", "total"⟩ : AggregationSpec) ∈
      [(⟨"x", "sum", "total"⟩ : AggregationSpec)] ∧
    (agg_fragment ⟨"x", "sum", "total"⟩).data
      <:+: (group_and_aggregate_sql "t" [] [⟨"x", "sum", "total"⟩]).data :=
  ⟨List.mem_singleton.mpr rfl,
    group_and_aggregate_embeds_function_verbatim "t" [] _ _ (List.mem_singleton.mpr rfl)⟩

/-! ## Claim C5 -/

/-- Claim C5.  The claim (and §4.2 of the spec) says a table name that
sanitises to the empty string falls back to `imported_data`.  The code's
`imported_data` fallback guards only a missing file stem: a stem of `___`
sanitises to the empty string, which is then used verbatim, so the CSV
CREATE statement is emitted with an empty identifier slot (and the engine
rejects it). -/
theorem empty_sanitised_table_name_not_defaulted :
    derive_table_name latin1Alphanumeric none (some "___") = "" ∧
    ("" : String) ≠ "imported_data" ∧
    csv_create_sql (derive_table_name latin1Alphanumeric none (some "___")) "___.csv"
      = "CREATE TABLE " ++ "" ++ " AS FROM " ++ sq ++ "___.csv" ++ sq := by
  refine ⟨by decide, by decide, by decide⟩

/-! ## Claim C6 -/

/-- Claim C6, counterexample.  The claim says the numeric classification is a
case-insensitive substring test.  The source uses Rust `str::contains`,
which is case-sensitive: the declared type `int` contains `INT`
case-insensitively but is classified non-numeric. -/
theorem numeric_classification_not_case_insensitive :
    is_numeric_type "int" = false ∧ spec_is_numeric_type "int" = true := by
  refine ⟨by decide, by decide⟩

/-- Claim C6, amended: a column is classified numeric iff its declared type
string contains one of `INT`, `DOUBLE`, `FLOAT`, `DECIMAL`, `NUMERIC` as a
case-sensitive substring; numeric columns get the full statistics query and
non-numeric columns get the query with `NULL` in the numeric slots. -/
theorem numeric_classification_amended (t c dt : String) :
    (is_numeric_type dt = true ↔
      ("INT".data <:+: dt.data ∨ "DOUBLE".data <:+: dt.data ∨
       "FLOAT".data <:+: dt.data ∨ "DECIMAL".data <:+: dt.data ∨
       "NUMERIC".data <:+: dt.data)) ∧
    (is_numeric_type dt = true →
      calculate_column_statistics_sql t c dt = numeric_stats_sql c t) ∧
    (is_numeric_type dt = false →
      calculate_column_statistics_sql t c dt = non_numeric_stats_sql c t) := by
  refine ⟨?_, fun h => by simp [calculate_column_statistics_sql, h],
    fun h => by simp [calculate_column_statistics_sql, h]⟩
  constructor
  · intro h
    simp [is_numeric_type, strContainsB] at h
    tauto
  · intro h
    simp [is_numeric_type, strContainsB]
    tauto

/-- Witness for the amended C6 theorem at the declared type `VARCHAR`. -/
theorem numeric_classification_amended_witness :
    is_numeric_type "VARCHAR" = false ∧
    calculate_column_statistics_sql "t" "c" "VARCHAR" = non_numeric_stats_sql "c" "t" :=
  ⟨by decide, (numeric_classification_amended "t" "c" "VARCHAR").2.2 (by decide)⟩

/-! ## Claim C9 -/

/-- Claim C9: a float or double cell that is NaN or an infinity decodes to
the wire `null` (because `Number::from_f64` refuses non-finite input), and
every finite float decodes to a wire float carrying its value. -/
theorem nonfinite_floats_decode_to_null (x : F64) :
    ((x = .nan ∨ x = .inf ∨ x = .negInf) →
      decodeValue (.float x) = .jnull ∧ decodeValue (.double x) = .jnull) ∧
    (∀ q, x = .finite q →
      decodeValue (.float x) = .jfloat q ∧ decodeValue (.double x) = .jfloat q) := by
  constructor
  · rintro (rfl | rfl | rfl) <;> exact ⟨rfl, rfl⟩
  · rintro q rfl
    exact ⟨rfl, rfl⟩

/-- Witness for C9 at NaN and at the finite value 1. -/
theorem nonfinite_floats_decode_to_null_witness :
    (decodeValue (.float .nan) = .jnull ∧ decodeValue (.double .nan) = .jnull) ∧
    (decodeValue (.float (.finite 1)) = .jfloat 1 ∧
      decodeValue (.double (.finite 1)) = .jfloat 1) :=
  ⟨(nonfinite_floats_decode_to_null .nan).1 (Or.inl rfl),
    (nonfinite_floats_decode_to_null (.finite 1)).2 1 rfl⟩

/-! ## Engine-state helper lemmas -/

theorem append_sorted_temp_ne (s : String) : s ++ "_sorted_temp" ≠ s := by
  intro h
  have hlen := congrArg String.length h
  rw [String.length_append] at hlen
  have h12 : ("_sorted_temp" : String).length = 12 := rfl
  rw [h12] at hlen
  omega

theorem lookup_dropAllTables_ne (st : DBState) (n m : String) (h : n ≠ m) :
    lookupTable (dropAllTables st m) n = lookupTable st n := by
  induction st with
  | nil => rfl
  | cons p rest ih =>
    rcases p with ⟨k, tb⟩
    show lookupTable
        (if k = m then dropAllTables rest m else (k, tb) :: dropAllTables rest m) n
      = lookupTable ((k, tb) :: rest) n
    by_cases hk : k = m
    · rw [if_pos hk, ih]
      show lookupTable rest n = if k = n then some tb else lookupTable rest n
      rw [if_neg (fun hkn => h (by rw [← hkn]; exact hk))]
    · rw [if_neg hk]
      show (if k = n then some tb else lookupTable (dropAllTables rest m) n)
        = if k = n then some tb else lookupTable rest n
      by_cases hkn : k = n
      · simp [hkn]
      · simp [hkn, ih]

theorem leStep_total {cmp : EngineValue → EngineValue → Bool}
    (htot : ∀ a b, cmp a b = true ∨ cmp b a = true)
    (a b : EngineValue) (K L : Bool) (hKL : K = true ∨ L = true) :
    (if cmp a b then (if cmp b a then K else true) else false) = true ∨
    (if cmp b a then (if cmp a b then L else true) else false) = true := by
  cases hab : cmp a b <;> cases hba : cmp b a <;> simp [hab, hba]
  · rcases htot a b with h | h
    · rw [hab] at h; exact (by simp at h)
    · rw [hba] at h; exact (by simp at h)
  · exact hKL

theorem leStep_trans {cmp : EngineValue → EngineValue → Bool}
    (htrans : ∀ a b c, cmp a b = true → cmp b c = true → cmp a c = true)
    (a b c : EngineValue) (K12 K23 K13 : Bool)
    (hK : K12 = true → K23 = true → K13 = true)
    (h12 : (if cmp a b then (if cmp b a then K12 else true) else false) = true)
    (h23 : (if cmp b c then (if cmp c b then K23 else true) else false) = true) :
    (if cmp a c then (if cmp c a then K13 else true) else false) = true := by
  cases hab : cmp a b
  · rw [hab] at h12; simp at h12
  · cases hbc : cmp b c
    · rw [hbc] at h23; simp at h23
    · have hac : cmp a c = true := htrans a b c hab hbc
      rw [hac]
      cases hca : cmp c a
      · simp
      · have hba : cmp b a = true := htrans b c a hbc hca
        have hcb : cmp c b = true := htrans c a b hca hab
        rw [hab, hba] at h12
        rw [hbc, hcb] at h23
        simp at h12 h23
        simp [hK h12 h23]

theorem keyLe_total {cmp : EngineValue → EngineValue → Bool}
    (htot : ∀ a b, cmp a b = true ∨ cmp b a = true) :
    ∀ (ks : List (Nat × Bool)) (r1 r2 : List EngineValue),
      keyLe cmp ks r1 r2 = true ∨ keyLe cmp ks r2 r1 = true := by
  intro ks
  induction ks with
  | nil => intro r1 r2; exact Or.inl rfl
  | cons k rest ih =>
    intro r1 r2
    obtain ⟨i, asc⟩ := k
    cases asc
    · exact leStep_total htot (cellAt r2 i) (cellAt r1 i) _ _ (ih r1 r2)
    · exact leStep_total htot (cellAt r1 i) (cellAt r2 i) _ _ (ih r1 r2)

theorem keyLe_trans {cmp : EngineValue → EngineValue → Bool}
    (htrans : ∀ a b c, cmp a b = true → cmp b c = true → cmp a c = true) :
    ∀ (ks : List (Nat × Bool)) (r1 r2 r3 : List EngineValue),
      keyLe cmp ks r1 r2 = true → keyLe cmp ks r2 r3 = true →
      keyLe cmp ks r1 r3 = true := by
  intro ks
  induction ks with
  | nil => intro r1 r2 r3 _ _; rfl
  | cons k rest ih =>
    intro r1 r2 r3 h12 h23
    obtain ⟨i, asc⟩ := k
    cases asc
    · exact leStep_trans htrans (cellAt r3 i) (cellAt r2 i) (cellAt r1 i) _ _ _
        (fun hA hB => ih r1 r2 r3 hB hA) h23 h12
    · exact leStep_trans htrans (cellAt r1 i) (cellAt r2 i) (cellAt r3 i) _ _ _
        (ih r1 r2 r3) h12 h23

theorem cmpW_total (a b : EngineValue) : cmpW a b = true ∨ cmpW b a = true := by
  unfold cmpW
  rcases Int.le_total (engMeasure a) (engMeasure b) with h | h
  · exact Or.inl (decide_eq_true h)
  · exact Or.inr (decide_eq_true h)

theorem cmpW_trans (a b c : EngineValue) :
    cmpW a b = true → cmpW b c = true → cmpW a c = true := by
  unfold cmpW
  intro h1 h2
  exact decide_eq_true (le_trans (of_decide_eq_true h1) (of_decide_eq_true h2))

/-! ## Claim C7 -/

/-- Claim C7: a successful `reorder_rows` leaves, under the original table
name, a table with the same columns whose rows are a permutation of the
original rows, sorted by the resolved sort keys under the requested ASC/DESC
directions (the lexicographic order `rowRel`).  The per-value engine
ordering `cmp` is any total transitive comparison. -/
theorem reorder_rows_perm_and_sorted
    (cmp : EngineValue → EngineValue → Bool)
    (htot : ∀ a b, cmp a b = true ∨ cmp b a = true)
    (htrans : ∀ a b c, cmp a b = true → cmp b c = true → cmp a c = true)
    (st : DBState) (tn : String) (ks : List SortColumn) (t : Table)
    (ht : lookupTable st tn = some t)
    (out : DBState × ReorderResult)
    (hok : reorder_rows cmp st tn ks = .ok out) :
    ∃ kidx t2, resolveKeys t.cols ks = some kidx ∧
      lookupTable out.1 tn = some t2 ∧
      t2.cols = t.cols ∧
      t2.rows.Perm t.rows ∧
      List.Sorted (rowRel cmp kidx) t2.rows := by
  unfold reorder_rows at hok
  by_cases hks : ks.isEmpty
  · simp [hks] at hok
  · have htemp : tn ++ "_sorted_temp" ≠ tn := append_sorted_temp_ne tn
    have h1 : lookupTable (dropAllTables st (tn ++ "_sorted_temp")) tn = some t := by
      rw [lookup_dropAllTables_ne st tn _ (Ne.symm htemp)]
      exact ht
    simp only [hks, if_false, Bool.false_eq_true] at hok
    rw [h1] at hok
    dsimp only at hok
    cases hor : orderByRows cmp t ks with
    | none => rw [hor] at hok; simp at hok
    | some sorted =>
      rw [hor] at hok
      dsimp only at hok
      have h2 : lookupTable
          ((tn ++ "_sorted_temp", Table.mk t.cols sorted)
            :: dropAllTables st (tn ++ "_sorted_temp")) tn = some t := by
        show (if tn ++ "_sorted_temp" = tn then some (Table.mk t.cols sorted)
          else lookupTable (dropAllTables st (tn ++ "_sorted_temp")) tn) = some t
        rw [if_neg htemp]
        exact h1
      rw [h2] at hok
      dsimp only at hok
      simp only [Except.ok.injEq] at hok
      have hout : out.1 = renameTable
          (dropAllTables
            ((tn ++ "_sorted_temp", Table.mk t.cols sorted)
              :: dropAllTables st (tn ++ "_sorted_temp")) tn)
          (tn ++ "_sorted_temp") tn := by
        rw [← hok]
      unfold orderByRows at hor
      cases hres : resolveKeys t.cols ks with
      | none => rw [hres] at hor; simp at hor
      | some kidx =>
        rw [hres] at hor
        simp only [Option.map_some, Option.map_some', Option.some.injEq] at hor
        refine ⟨kidx, Table.mk t.cols sorted, rfl, ?_, rfl, ?_, ?_⟩
        · rw [hout]
          show lookupTable (renameTable
              (if tn ++ "_sorted_temp" = tn
                then dropAllTables (dropAllTables st (tn ++ "_sorted_temp")) tn
                else (tn ++ "_sorted_temp", Table.mk t.cols sorted)
                  :: dropAllTables (dropAllTables st (tn ++ "_sorted_temp")) tn)
              (tn ++ "_sorted_temp") tn) tn = some (Table.mk t.cols sorted)
          rw [if_neg htemp]
          show lookupTable
              ((if tn ++ "_sorted_temp" = tn ++ "_sorted_temp"
                  then (tn, Table.mk t.cols sorted)
                  else (tn ++ "_sorted_temp", Table.mk t.cols sorted))
                :: renameTable
                    (dropAllTables (dropAllTables st (tn ++ "_sorted_temp")) tn)
                    (tn ++ "_sorted_temp") tn) tn
            = some (Table.mk t.cols sorted)
          rw [if_pos rfl]
          show (if tn = tn then some (Table.mk t.cols sorted) else _)
            = some (Table.mk t.cols sorted)
          rw [if_pos rfl]
        · show sorted.Perm t.rows
          rw [← hor]
          exact List.perm_insertionSort _ _
        · show List.Sorted (rowRel cmp kidx) sorted
          rw [← hor]
          haveI : IsTotal (List EngineValue) (rowRel cmp kidx) :=
            ⟨fun a b => keyLe_total htot kidx a b⟩
          haveI : IsTrans (List EngineValue) (rowRel cmp kidx) :=
            ⟨fun a b c => keyLe_trans htrans kidx a b c⟩
          exact List.sorted_insertionSort _ _

/-- Witness for C7: reordering the scenario-S3 table by ascending `age`
yields ages 20, 25, 30 — a sorted permutation of the original rows. -/
theorem reorder_rows_perm_and_sorted_witness :
    lookupTable stateW "t" = some tableW ∧
    reorder_rows cmpW stateW "t" [⟨"age", true⟩] = .ok reorderedW ∧
    (∃ kidx t2, resolveKeys tableW.cols [⟨"age", true⟩] = some kidx ∧
      lookupTable reorderedW.1 "t" = some t2 ∧
      t2.cols = tableW.cols ∧
      t2.rows.Perm tableW.rows ∧
      List.Sorted (rowRel cmpW kidx) t2.rows) :=
  ⟨rfl, rfl,
    reorder_rows_perm_and_sorted cmpW cmpW_total cmpW_trans stateW "t"
      [⟨"age", true⟩] tableW rfl reorderedW rfl⟩

/-! ## Claim C8 -/

/-- Claim C8: `query_data` defaults to limit 1000 and offset 0 when the
arguments are absent, and on success `total_rows` is the number of rows in
the returned window — `min limit (tableRows - offset)` — not the cardinality
of the underlying table. -/
theorem query_data_defaults_and_window (st : DBState) (tn : String) :
    query_data st tn none none = execute_select_window st tn 1000 0 ∧
    ∀ (l o : Option Nat) (t : Table) (r : QueryResult),
      lookupTable st tn = some t →
      query_data st tn l o = .ok r →
      r.total_rows = r.rows.length ∧
      r.total_rows = min (l.getD 1000) (t.rows.length - o.getD 0) := by
  refine ⟨rfl, ?_⟩
  intro l o t r ht hq
  unfold query_data execute_select_window at hq
  rw [ht] at hq
  simp only [Except.ok.injEq] at hq
  subst hq
  refine ⟨rfl, ?_⟩
  show (((t.rows.drop (o.getD 0)).take (l.getD 1000)).map
      (fun row => row.map decodeValue)).length = _
  rw [List.length_map, List.length_take, List.length_drop]

/-- Witness for C8: a three-row table read with limit 2 reports
`total_rows = 2`, the window size, not the cardinality 3. -/
theorem query_data_defaults_and_window_witness :
    lookupTable stateQ "t" = some tableQ ∧
    query_data stateQ "t" (some 2) none
      = .ok ⟨["x"], [[.jint 1], [.jint 2]], 2⟩ ∧
    ((⟨["x"], [[.jint 1], [.jint 2]], 2⟩ : QueryResult).total_rows
        = (⟨["x"], [[.jint 1], [.jint 2]], 2⟩ : QueryResult).rows.length ∧
      (⟨["x"], [[.jint 1], [.jint 2]], 2⟩ : QueryResult).total_rows
        = min ((some 2).getD 1000) (tableQ.rows.length - (none : Option Nat).getD 0)) :=
  ⟨rfl, rfl,
    (query_data_defaults_and_window stateQ "t").2 (some 2) none tableQ
      ⟨["x"], [[.jint 1], [.jint 2]], 2⟩ rfl rfl⟩

/-! ## Claim C10 -/

theorem rawTokens_ne_nil (l : List Char) : rawTokens l ≠ [] := by
  induction l with
  | nil => simp [rawTokens]
  | cons c cs ih =>
    show tokStep c (rawTokens cs) ≠ []
    unfold tokStep
    by_cases hc : c = ' '
    · simp [hc]
    · simp only [hc, if_false]
      cases h : rawTokens cs with
      | nil => exact absurd h ih
      | cons t ts => simp

theorem foldr_tokStep_append (xs : List Char) (L : List (List Char)) :
    xs.foldr tokStep ([] :: L) = rawTokens xs ++ L := by
  induction xs with
  | nil => rfl
  | cons c cs ih =>
    show tokStep c (cs.foldr tokStep ([] :: L)) = tokStep c (rawTokens cs) ++ L
    rw [ih]
    unfold tokStep
    by_cases hc : c = ' '
    · simp [hc]
    · simp only [hc, if_false]
      cases h : rawTokens cs with
      | nil => exact absurd h (rawTokens_ne_nil cs)
      | cons t ts => simp

theorem rawTokens_append_space (xs ys : List Char) :
    rawTokens (xs ++ ' ' :: ys) = rawTokens xs ++ rawTokens ys := by
  have h1 : rawTokens (xs ++ ' ' :: ys) = xs.foldr tokStep (rawTokens (' ' :: ys)) := by
    simp [rawTokens, List.foldr_append]
  have h2 : rawTokens (' ' :: ys) = [] :: rawTokens ys := by
    show tokStep ' ' (rawTokens ys) = [] :: rawTokens ys
    simp [tokStep]
  rw [h1, h2, foldr_tokStep_append]

theorem tokensL_append_space (xs ys : List Char) :
    tokensL (xs ++ ' ' :: ys) = tokensL xs ++ tokensL ys := by
  simp [tokensL, rawTokens_append_space, List.filter_append]

theorem tokensL_double_space (xs ys : List Char) :
    tokensL (xs ++ ' ' :: ' ' :: ys) = tokensL (xs ++ ' ' :: ys) := by
  rw [tokensL_append_space xs (' ' :: ys), tokensL_append_space xs ys]
  have h : tokensL (' ' :: ys) = tokensL ys := by
    have h0 := tokensL_append_space [] ys
    simpa using h0
  rw [h]

/-- Claim C10: with an empty conditions list, `filter_data` and `query_data`
issue SQL texts with identical space-separated tokens (they differ only by a
doubled space at the empty WHERE slot), so an engine that reads the
statement as its token stream returns the same `QueryResult` for both, for
every table name, limit and offset. -/
theorem filter_data_empty_matches_query_data (tn : String) (l o : Option Nat)
    (engine : List (List Char) → QueryResult) :
    engine (sqlTokens (filter_data_query tn [] l o))
      = engine (sqlTokens (query_data_query tn l o)) := by
  have ef : filter_data_query tn [] l o
      = "SELECT * FROM " ++ tn ++ " " ++ "" ++ " LIMIT "
        ++ toString (l.getD 1000) ++ " OFFSET " ++ toString (o.getD 0) := rfl
  have eq1 : query_data_query tn l o
      = "SELECT * FROM " ++ tn ++ " LIMIT "
        ++ toString (l.getD 1000) ++ " OFFSET " ++ toString (o.getD 0) := rfl
  have hf : (filter_data_query tn [] l o).data
      = ("SELECT * FROM ".data ++ tn.data) ++ ' ' :: ' '
          :: ("LIMIT ".data ++ (toString (l.getD 1000)).data
              ++ (" OFFSET ".data ++ (toString (o.getD 0)).data)) := by
    rw [ef]
    simp [String.data_append, List.append_assoc]
  have hq : (query_data_query tn l o).data
      = ("SELECT * FROM ".data ++ tn.data) ++ ' '
          :: ("LIMIT ".data ++ (toString (l.getD 1000)).data
              ++ (" OFFSET ".data ++ (toString (o.getD 0)).data)) := by
    rw [eq1]
    simp [String.data_append, List.append_assoc]
  show engine (tokensL (filter_data_query tn [] l o).data)
    = engine (tokensL (query_data_query tn l o).data)
  rw [hf, hq, tokensL_double_space]

end Rats
